import Mathlib

/-!
Shallow embedding of the AI-HERO-Health repository (Python sources under
`src/`): the `HealthDataset` class (`src/datamodules/datasets/health.py`),
the example prediction script in that file's `__main__` block, the YAML
configuration loader of `src/models/mvit_module.py`, and the structural /
optimizer-configuration behaviour of the two Lightning modules
(`EFFILitModule`, `MVITLitModule`).

Modelling conventions:
* Python exceptions become `Except PyError`.
* The filesystem the dataset reads from is a function
  `FS : String → Except PyError GrayImg`; a missing file is
  `.error (.fileNotFoundError path)`, a malformed file some other error.
* External library computations with no bearing on the claims (the cv2
  CLAHE contrast equalizer, PIL's RGB→L conversion, the pretrained
  networks, loss/metric functions) are parameters of the definitions.
* `torch.FloatTensor(...)` over a 0/1 list is modelled by a `Tensor`
  carrying an explicit shape, so that `.squeeze()` and 0-dim indexing
  behave as in torch: `squeeze` drops every dimension of size 1, and
  indexing or `shape[0]` on a 0-dim tensor raises IndexError.
* Label values 0.0 / 1.0 are exact in float32, so tensor entries are `Nat`.
-/

/-- The Python exceptions that the modelled code paths can raise. -/
inductive PyError where
  | fileNotFoundError (path : String)
  | unidentifiedImageError (path : String)
  | indexError
  | attributeError
  | nameError (missing : String)
  | unboundLocalError
deriving DecidableEq, Inhabited

/-- A single-channel image file's decoded pixels (`PIL.Image.open` result). -/
abbrev GrayImg := List Nat

/-- An RGB image (`PIL.Image` in mode "RGB"): one (r, g, b) triple per pixel. -/
abbrev Img := List (Nat × Nat × Nat)

/-- The disk contents seen by the dataset: maps a path to the decoded
single-channel image, or to the exception `Image.open` raises there
(missing file, malformed file). -/
abbrev FS := String → Except PyError GrayImg

/-- `PIL.Image.copy` returns a new image with the same pixel values; in the
value semantics of this embedding it is the identity. -/
def Img.copy (img : Img) : Img := img

/-- A torch tensor as built by this code: an explicit shape plus the flat
element list.  Only 1-D construction, `squeeze`, scalar indexing and
`shape[0]` are used by the source. -/
structure Tensor where
  shape : List Nat
  data : List Nat
deriving DecidableEq, Inhabited

/-- `torch.FloatTensor(l)` for a flat Python list `l`: a 1-D tensor. -/
def floatTensor (l : List Nat) : Tensor := { shape := [l.length], data := l }

/-- `Tensor.squeeze()`: drops every dimension of size 1, keeping the data.
A length-1 1-D tensor becomes 0-dimensional. -/
def Tensor.squeeze (t : Tensor) : Tensor :=
  { shape := t.shape.filter (fun d => d ≠ 1), data := t.data }

/-- `t.shape[0]`: IndexError on a 0-dim tensor (empty shape tuple). -/
def Tensor.shape0 (t : Tensor) : Except PyError Nat :=
  match t.shape with
  | [] => .error .indexError
  | d :: _ => .ok d

/-- `t[i]` for the 0-D/1-D tensors this code builds: indexing a 0-dim
tensor raises IndexError ("invalid index of a 0-dim tensor"), an
out-of-range index raises IndexError, otherwise the scalar is returned. -/
def Tensor.item (t : Tensor) (i : Nat) : Except PyError Nat :=
  match t.shape with
  | [] => .error .indexError
  | d :: _ => if i < d then .ok (t.data.getD i 0) else .error .indexError

/-- A scalar Python value as it appears in a `(image, label)` pair: either a
numeric tensor scalar or a string. -/
inductive PyVal where
  | num (v : Nat)
  | str (s : String)
deriving DecidableEq, Inhabited

/-- The `self.labels` field: a float tensor when the CSV has a `label`
column, otherwise the plain Python list `self.df["image"].tolist()`. -/
inductive Labels where
  | tensor (t : Tensor)
  | strlist (l : List String)
deriving DecidableEq, Inhabited

/-- `labels[idx]`: tensor indexing in the tensor case; Python list indexing
(IndexError when out of range) in the list case. -/
def Labels.index : Labels → Nat → Except PyError PyVal
  | .tensor t, i => (t.item i).map PyVal.num
  | .strlist l, i => if i < l.length then .ok (.str (l.getD i "")) else .error .indexError

/-- One data row of the CSV read by `pd.read_csv`: the `image` filename and
the `label` cell (ignored when the file has no `label` column). -/
structure CSVRow where
  image : String
  label : String
deriving DecidableEq, Inhabited

/-- The parsed CSV file: its rows plus whether a `label` column is present
(`'label' in self.df.columns`). -/
structure CSVFile where
  rows : List CSVRow
  hasLabelCol : Bool
deriving DecidableEq, Inhabited

/-- `joblib.Parallel(n_jobs=20)(delayed(f)(x) for x in l)`: applies `f` to
every element, returns the results in input order, and re-raises a worker's
exception instead of returning a list when any call fails. -/
def parallelMap {α β : Type} (f : α → Except PyError β) : List α → Except PyError (List β)
  | [] => .ok []
  | a :: rest =>
    match f a, parallelMap f rest with
    | .ok b, .ok bs => .ok (b :: bs)
    | .error e, _ => .error e
    | .ok _, .error e => .error e

/-- The state of a constructed `HealthDataset` object. -/
structure HealthDataset where
  df_contains_label : Bool
  labels : Labels
  names : List String
  transform : Option (Img → Img)
  target_transform : Option (PyVal → PyVal)
  image_path : String
  images : List Img
  load_ram : Bool
deriving Inhabited

/-- `HealthDataset.preproc_image`: `Image.open(image_path)` (any failure
propagates), CLAHE contrast equalization (external cv2 algorithm, a
parameter here), then `np.stack((image, image, image), 2)` and
`Image.fromarray(trans.astype(np.uint8), mode="RGB")`: each grayscale pixel
becomes an equal (r, g, b) triple, truncated to uint8. -/
def HealthDataset.preproc_image (fs : FS) (clahe : GrayImg → GrayImg)
    (image_path : String) : Except PyError Img :=
  match fs image_path with
  | .error e => .error e
  | .ok image =>
    let image := clahe image
    .ok (image.map (fun v => (v % 256, v % 256, v % 256)))

/-- `HealthDataset.__init__`: reads the CSV (already parsed here as
`label_path : CSVFile`), maps labels with
`0 if label == "negative" else 1` into a squeezed float tensor when a
`label` column exists and otherwise stores the filename list, records the
filename list and the transforms, and, when `load_ram` is set, eagerly
preprocesses every image with `self.image_path + name` path concatenation
through the parallel map (any worker exception propagates). -/
def HealthDataset.init (fs : FS) (clahe : GrayImg → GrayImg) (label_path : CSVFile)
    (img_path : String) (transform : Option (Img → Img))
    (target_transform : Option (PyVal → PyVal)) (load_ram : Bool) :
    Except PyError HealthDataset :=
  let df := label_path
  let df_contains_label := df.hasLabelCol
  let labels : Labels :=
    if df_contains_label then
      .tensor (Tensor.squeeze (floatTensor
        (df.rows.map (fun row => if row.label = "negative" then 0 else 1))))
    else
      .strlist (df.rows.map (fun row => row.image))
  let names := df.rows.map (fun row => row.image)
  if load_ram then
    match parallelMap
        (fun name => HealthDataset.preproc_image fs clahe (img_path ++ name)) names with
    | .error e => .error e
    | .ok images =>
      .ok { df_contains_label, labels, names, transform, target_transform,
            image_path := img_path, images, load_ram }
  else
    .ok { df_contains_label, labels, names, transform, target_transform,
          image_path := img_path, images := [], load_ram }

/-- `HealthDataset.load_image`: returns `self.images[idx].copy()` when the
RAM cache is on (IndexError past the cache length), otherwise re-runs
`self.preproc_image(self.image_path + self.names[idx])`.  The method
assigns no attribute, so the post-state is the input state. -/
def HealthDataset.load_image (fs : FS) (clahe : GrayImg → GrayImg)
    (ds : HealthDataset) (idx : Nat) : Except PyError Img × HealthDataset :=
  (if ds.load_ram then
    if idx < ds.images.length then .ok (Img.copy (ds.images.getD idx [])) else .error .indexError
  else
    if idx < ds.names.length then
      HealthDataset.preproc_image fs clahe (ds.image_path ++ ds.names.getD idx "")
    else .error .indexError
  , ds)

/-- `HealthDataset.__len__`: `self.labels.shape[0]`.  A Python list has no
`shape` attribute (AttributeError); a tensor answers `shape[0]`
(IndexError when 0-dimensional).  No attribute is assigned. -/
def HealthDataset.lenS (ds : HealthDataset) : Except PyError Nat × HealthDataset :=
  (match ds.labels with
   | .tensor t => t.shape0
   | .strlist _ => .error .attributeError
  , ds)

/-- `HealthDataset.__getitem__`: `self.load_image(idx)`, then
`self.labels[idx]`, then the transform and target transform when set
(`if self.transform: ...`); exceptions from each step propagate and no
attribute is assigned. -/
def HealthDataset.getitemS (fs : FS) (clahe : GrayImg → GrayImg)
    (ds : HealthDataset) (idx : Nat) : Except PyError (Img × PyVal) × HealthDataset :=
  (match (HealthDataset.load_image fs clahe ds idx).1 with
   | .error e => .error e
   | .ok image =>
     match ds.labels.index idx with
     | .error e => .error e
     | .ok label =>
       let image := match ds.transform with | some t => t image | none => image
       let label := match ds.target_transform with | some t => t label | none => label
       .ok (image, label)
  , ds)

/-! ## The example prediction script (`__main__` block of health.py) -/

/-- The output directory of the example script. -/
def data_dir : String := "/hkfs/work/workspace/scratch/im9193-H5/tmp/"

/-- The body of the `try:` block at loop index `i`: `dataset.__getitem__(i)`
(its exception propagates), `Image.fromarray(np.array(img), mode="RGB")`
(the identity on the pixel values), `.convert("L")` (PIL's RGB→L
conversion, a parameter here) and the save of `data_dir + f"i.png"`,
modelled as the produced (path, contents) pair. -/
def exampleBody (fs : FS) (clahe : GrayImg → GrayImg) (convertL : Img → GrayImg)
    (ds : HealthDataset) (i : Nat) : Except PyError (String × GrayImg) :=
  match (HealthDataset.getitemS fs clahe ds i).1 with
  | .error e => .error e
  | .ok (img, _) =>
    let PIL_image := img
    let PIL_image := convertL PIL_image
    .ok (data_dir ++ toString i ++ ".png", PIL_image)

/-- The `for i in range(150): try: ... except: continue` loop: each index's
body runs inside a blanket `except: continue`, so a failing body contributes
no saved file and the loop moves to the next index; the accumulated value is
the list of files saved, in index order. -/
def scriptLoop (act : Nat → Except PyError (String × GrayImg)) : List (String × GrayImg) :=
  (List.range 150).foldl
    (fun acc i => match act i with
      | .ok file => acc ++ [file]
      | .error _ => acc) []

/-! ## The YAML configuration loader (`src/models/mvit_module.py`) -/

/-- A parsed YAML value: a scalar or a nested mapping. -/
inductive Yaml where
  | scalar (s : String)
  | dict (entries : List (String × Yaml))
deriving Inhabited

/-- `flatten_yaml_as_dict(d, parent_key, sep)`: walks the mapping's items in
order, recursing into mapping values with the extended dotted key and
emitting scalar values under their dotted key. -/
def flatten_yaml_as_dict : List (String × Yaml) → String → String → List (String × String)
  | [], _, _ => []
  | (k, v) :: rest, parent_key, sep =>
    let new_key := if parent_key ≠ "" then parent_key ++ sep ++ k else k
    (match v with
     | .dict entries => flatten_yaml_as_dict entries new_key sep
     | .scalar s => [(new_key, s)])
    ++ flatten_yaml_as_dict rest parent_key sep

/-- The configuration object: `NestedNamespace` over the flattened dict.
Since every value of the flattened dict is a scalar, the constructor just
sets one attribute per (dotted key, value) pair. -/
def NestedNamespace (dictionary : List (String × String)) : List (String × String) :=
  dictionary

/-- The names defined at module scope in `mvit_module.py` (imports, the
module-level functions and classes).  Neither `is_master_node` nor `logger`
is among them. -/
def mvit_module_names : List String :=
  ["Any", "List", "torch", "nn", "LightningModule", "MaxMetric", "Accuracy",
   "build_classification_model", "argparse", "yaml", "collections",
   "SimpleNamespace", "flatten_yaml_as_dict", "NestedNamespace",
   "load_config", "MVITLitModule"]

/-- `load_config`: on a successful parse, flattens the YAML and builds the
namespace object.  On a `yaml.YAMLError`, the handler first evaluates the
name `is_master_node`; that name is not defined anywhere in the module, so
a NameError is raised there and neither warning is logged.  (Were the name
defined and truthy, the handler would log the two warnings and fall through
to `return obj_cfg`, raising UnboundLocalError on the unassigned
`obj_cfg`.)  The second component is the list of logged messages. -/
def load_config (parse_result : Except String (List (String × Yaml))) :
    Except PyError (List (String × String)) × List String :=
  match parse_result with
  | .ok cfg =>
    let flat_cfg := flatten_yaml_as_dict cfg "" "."
    let obj_cfg := NestedNamespace flat_cfg
    (.ok obj_cfg, [])
  | .error exc =>
    if "is_master_node" ∈ mvit_module_names then
      (.error .unboundLocalError,
       ["Error while loading config file", "Error message: " ++ exc])
    else
      (.error (.nameError "is_master_node"), [])

/-! ## The two Lightning modules (`effinet_module.py`, `mvit_module.py`) -/

/-- A layer of a network, at the structural granularity the claims need. -/
inductive Layer where
  | linear (inFeatures outFeatures : Nat)
  | silu
  | dropout (p : Rat)
  | other (tag : String)
deriving DecidableEq, Inhabited

/-- A classification network: its backbone (everything up to the
classification head) and its `classifier` head, a sequential layer list. -/
structure Network where
  backbone : List Layer
  classifier : List Layer
deriving DecidableEq, Inhabited

/-- The head swap in `EFFILitModule.__init__`: the pretrained
`efficientnetv2_rw_t` (external, a parameter `m` here) gets its classifier
replaced by `nn.Sequential(nn.Linear(1024, 32))` extended by `add_module`
with SiLU, Dropout(p=0.5) and `nn.Linear(32, output_size)`.  (The
`freeze_layers` branch only toggles `requires_grad` flags and is not a
structural change.) -/
def EFFILitModule.init_model (m : Network) (output_size : Nat) : Network :=
  { m with classifier :=
      [Layer.linear 1024 32, Layer.silu, Layer.dropout ((1 : Rat)/2),
       Layer.linear 32 output_size] }

/-- The head swap in `MVITLitModule.__init__`:
`self.model.classifier[-1] = nn.Linear(640, self.hparams.output_size)`
replaces the last entry of the pretrained MobileViT classifier in place.
(Python's `[-1]` assignment; the pretrained classifier is nonempty.) -/
def MVITLitModule.init_model (m : Network) (output_size : Nat) : Network :=
  { m with classifier :=
      m.classifier.set (m.classifier.length - 1) (Layer.linear 640 output_size) }

/-- The hyperparameters shared by the two modules' `configure_optimizers`. -/
structure HParams where
  output_size : Nat
  pos_weight : Int
  lr : Rat
  weight_decay : Rat
  lr_scheduler_min_lr : Rat
  lr_scheduler_factor : Rat
  lr_scheduler_patience : Rat
deriving DecidableEq, Inhabited

/-- The optimizer built by `configure_optimizers`. -/
structure OptimizerConfig where
  optimizer_type : String
  lr : Rat
  weight_decay : Rat
deriving DecidableEq, Inhabited

/-- The learning-rate scheduler built by `configure_optimizers`. -/
structure SchedulerConfig where
  scheduler_type : String
  mode : String
  factor : Rat
  patience : Rat
  min_lr : Rat
deriving DecidableEq, Inhabited

/-- The dict returned by `configure_optimizers`: the optimizer and the
`lr_scheduler` entry with its `monitor` key. -/
structure OptimizersResult where
  optimizer : OptimizerConfig
  scheduler : SchedulerConfig
  monitor : String
deriving DecidableEq, Inhabited

/-- `EFFILitModule.configure_optimizers`: Adam over the hyperparameters and
a `ReduceLROnPlateau` scheduler in `"min"` mode monitoring `"val/loss"`. -/
def EFFILitModule.configure_optimizers (hp : HParams) : OptimizersResult :=
  { optimizer := { optimizer_type := "Adam", lr := hp.lr,
                   weight_decay := hp.weight_decay },
    scheduler := { scheduler_type := "ReduceLROnPlateau", mode := "min",
                   factor := hp.lr_scheduler_factor,
                   patience := hp.lr_scheduler_patience,
                   min_lr := hp.lr_scheduler_min_lr },
    monitor := "val/loss" }

/-- `MVITLitModule.configure_optimizers`: textually the same construction as
the EfficientNet module's. -/
def MVITLitModule.configure_optimizers (hp : HParams) : OptimizersResult :=
  { optimizer := { optimizer_type := "Adam", lr := hp.lr,
                   weight_decay := hp.weight_decay },
    scheduler := { scheduler_type := "ReduceLROnPlateau", mode := "min",
                   factor := hp.lr_scheduler_factor,
                   patience := hp.lr_scheduler_patience,
                   min_lr := hp.lr_scheduler_min_lr },
    monitor := "val/loss" }

/-- What a `training_step` / `validation_step` call does that is observable
here: the `self.log(...)` calls made, whether `self.lr_schedulers().step`
was called and with which value, and the returned loss and predictions. -/
structure StepOutput (Y : Type) where
  logged : List (String × Rat)
  scheduler_step : Option Rat
  loss : Rat
  preds : List Int
  targets : Y
deriving Inhabited

/-- `EFFILitModule.step`: `logits = self.forward(x).squeeze()` (the external
network's squeezed output, the parameter `forward`), the BCE-with-logits
loss (external, the parameter `criterion`), and `preds = (logits > 0).long()`. -/
def EFFILitModule.step {X Y : Type} (forward : X → List Rat)
    (criterion : List Rat → Y → Rat) (batch : X × Y) : Rat × List Int × Y :=
  let logits := forward batch.1
  let loss := criterion logits batch.2
  let preds := logits.map (fun l => if 0 < l then (1 : Int) else 0)
  (loss, preds, batch.2)

/-- `EFFILitModule.training_step`: computes the step, logs the three train
metrics (metric objects external, passed as functions of preds and
targets), and does not step the scheduler. -/
def EFFILitModule.training_step {X Y : Type} (forward : X → List Rat)
    (criterion : List Rat → Y → Rat)
    (train_acc train_pre train_rec : List Int → Y → Rat) (batch : X × Y) :
    StepOutput Y :=
  let (loss, preds, targets) := EFFILitModule.step forward criterion batch
  { logged := [("train/acc", train_acc preds targets),
               ("train/pre", train_pre preds targets),
               ("train/rec", train_rec preds targets)],
    scheduler_step := none,
    loss, preds, targets }

/-- `EFFILitModule.validation_step`: computes the step, logs `"val/loss"`
with the step's loss and `"val/acc"`, then calls
`self.lr_schedulers().step(loss)` with that same validation loss. -/
def EFFILitModule.validation_step {X Y : Type} (forward : X → List Rat)
    (criterion : List Rat → Y → Rat) (val_acc : List Int → Y → Rat)
    (batch : X × Y) : StepOutput Y :=
  let (loss, preds, targets) := EFFILitModule.step forward criterion batch
  { logged := [("val/loss", loss), ("val/acc", val_acc preds targets)],
    scheduler_step := some loss,
    loss, preds, targets }

/-- `MVITLitModule.step`: textually the same as `EFFILitModule.step`. -/
def MVITLitModule.step {X Y : Type} (forward : X → List Rat)
    (criterion : List Rat → Y → Rat) (batch : X × Y) : Rat × List Int × Y :=
  let logits := forward batch.1
  let loss := criterion logits batch.2
  let preds := logits.map (fun l => if 0 < l then (1 : Int) else 0)
  (loss, preds, batch.2)

/-- `MVITLitModule.training_step`: logs `"train/loss"` and `"train/acc"`;
the `sch.step(loss)` lines in the training step are commented out in the
source, so the scheduler is not stepped here. -/
def MVITLitModule.training_step {X Y : Type} (forward : X → List Rat)
    (criterion : List Rat → Y → Rat) (train_acc : List Int → Y → Rat)
    (batch : X × Y) : StepOutput Y :=
  let (loss, preds, targets) := MVITLitModule.step forward criterion batch
  { logged := [("train/loss", loss), ("train/acc", train_acc preds targets)],
    scheduler_step := none,
    loss, preds, targets }

/-- `MVITLitModule.validation_step`: logs `"val/loss"` and `"val/acc"`,
then calls `self.lr_schedulers().step(loss)` with the validation loss. -/
def MVITLitModule.validation_step {X Y : Type} (forward : X → List Rat)
    (criterion : List Rat → Y → Rat) (val_acc : List Int → Y → Rat)
    (batch : X × Y) : StepOutput Y :=
  let (loss, preds, targets) := MVITLitModule.step forward criterion batch
  { logged := [("val/loss", loss), ("val/acc", val_acc preds targets)],
    scheduler_step := some loss,
    loss, preds, targets }

/-! ## Helper lemmas -/

/-- A successful parallel map has one result per input. -/
theorem parallelMap_ok_length {α β : Type} (f : α → Except PyError β) :
    ∀ (l : List α) (ys : List β), parallelMap f l = .ok ys → ys.length = l.length := by
  intro l
  induction l with
  | nil =>
    intro ys h
    simp [parallelMap] at h
    simp [← h]
  | cons a rest ih =>
    intro ys h
    simp only [parallelMap] at h
    cases ha : f a with
    | error e => rw [ha] at h; simp at h
    | ok b =>
      rw [ha] at h
      cases hrest : parallelMap f rest with
      | error e => rw [hrest] at h; simp at h
      | ok bs =>
        rw [hrest] at h
        simp at h
        simp [← h, ih bs hrest]

/-- A successful parallel map returns, at every input position, the
successful result of the function on that position's input. -/
theorem parallelMap_ok_getD {α β : Type} (f : α → Except PyError β) :
    ∀ (l : List α) (ys : List β), parallelMap f l = .ok ys →
      ∀ (i : Nat) (d : α) (d2 : β), i < l.length → f (l.getD i d) = .ok (ys.getD i d2) := by
  intro l
  induction l with
  | nil =>
    intro ys _ i d d2 hi
    simp at hi
  | cons a rest ih =>
    intro ys h i d d2 hi
    simp only [parallelMap] at h
    cases ha : f a with
    | error e => rw [ha] at h; simp at h
    | ok b =>
      rw [ha] at h
      cases hrest : parallelMap f rest with
      | error e => rw [hrest] at h; simp at h
      | ok bs =>
        rw [hrest] at h
        simp at h
        cases i with
        | zero => simp [← h, ha]
        | succ j =>
          simp only [List.getD_cons_succ, ← h]
          exact ih bs hrest j d d2 (by simpa using hi)

/-- When some input of the parallel map fails, the whole call fails. -/
theorem parallelMap_error_of_mem {α β : Type} (f : α → Except PyError β) :
    ∀ (l : List α), (∃ a ∈ l, ∃ e, f a = .error e) →
      ∃ e2, parallelMap f l = .error e2 := by
  intro l
  induction l with
  | nil =>
    rintro ⟨a, ha, _⟩
    simp at ha
  | cons b rest ih =>
    rintro ⟨a, ha, e, hfa⟩
    simp only [List.mem_cons] at ha
    cases ha with
    | inl hab =>
      refine ⟨e, ?_⟩
      simp [parallelMap, ← hab, hfa]
    | inr hmem =>
      obtain ⟨e2, he2⟩ := ih ⟨a, hmem, e, hfa⟩
      cases hb : f b with
      | error eb => exact ⟨eb, by simp [parallelMap, hb]⟩
      | ok vb => exact ⟨e2, by simp [parallelMap, hb, he2]⟩

/-- The labels value `__init__` stores for a given CSV. -/
def initLabels (csv : CSVFile) : Labels :=
  if csv.hasLabelCol then
    .tensor (Tensor.squeeze (floatTensor
      (csv.rows.map (fun row => if row.label = "negative" then 0 else 1))))
  else
    .strlist (csv.rows.map (fun row => row.image))

/-- Inversion of a successful `HealthDataset.__init__`: every field of the
constructed object in terms of the constructor arguments. -/
theorem init_ok_fields (fs : FS) (clahe : GrayImg → GrayImg) (csv : CSVFile)
    (img_path : String) (tr : Option (Img → Img)) (ttr : Option (PyVal → PyVal))
    (lr : Bool) (ds : HealthDataset)
    (h : HealthDataset.init fs clahe csv img_path tr ttr lr = .ok ds) :
    ds.df_contains_label = csv.hasLabelCol
    ∧ ds.labels = initLabels csv
    ∧ ds.names = csv.rows.map (fun row => row.image)
    ∧ ds.transform = tr
    ∧ ds.target_transform = ttr
    ∧ ds.image_path = img_path
    ∧ ds.load_ram = lr
    ∧ (lr = true →
        parallelMap (fun name => HealthDataset.preproc_image fs clahe (img_path ++ name))
          (csv.rows.map (fun row => row.image)) = .ok ds.images)
    ∧ (lr = false → ds.images = []) := by
  cases lr with
  | false =>
    simp only [HealthDataset.init, if_neg (by simp : ¬ (false = true))] at h
    have hds := (Except.ok.injEq _ _).mp h.symm
    subst hds
    simp [initLabels]
  | true =>
    simp only [HealthDataset.init, if_pos rfl] at h
    cases hp : parallelMap
        (fun name => HealthDataset.preproc_image fs clahe (img_path ++ name))
        (csv.rows.map (fun row => row.image)) with
    | error e => rw [hp] at h; simp at h
    | ok images =>
      rw [hp] at h
      have hds := (Except.ok.injEq _ _).mp h.symm
      subst hds
      simp [initLabels, hp]

/-- The successful value of an `Except`, when there is one. -/
def okValue {ε α : Type} : Except ε α → Option α
  | .ok a => some a
  | .error _ => none

/-- The try/except fold of the example script, over any index list and
accumulator: it appends exactly the successful results, in order. -/
theorem foldl_try_filterMap (act : Nat → Except PyError (String × GrayImg)) :
    ∀ (l : List Nat) (acc : List (String × GrayImg)),
      l.foldl
        (fun acc i => match act i with
          | .ok file => acc ++ [file]
          | .error _ => acc) acc
      = acc ++ l.filterMap (fun i => okValue (act i)) := by
  intro l
  induction l with
  | nil => intro acc; simp
  | cons a rest ih =>
    intro acc
    simp only [List.foldl_cons, List.filterMap_cons]
    cases ha : act a with
    | ok file => simp [ha, ih, okValue]
    | error e => simp [ha, ih, okValue]

/-- Assigning to `l[-1]` (i.e. `l.set (l.length - 1) x`) on a nonempty list
replaces exactly the last element. -/
theorem set_last_eq_dropLast_append {α : Type} (x : α) :
    ∀ (l : List α), l ≠ [] → l.set (l.length - 1) x = l.dropLast ++ [x] := by
  intro l
  induction l with
  | nil => intro h; exact absurd rfl h
  | cons a rest ih =>
    intro _
    cases rest with
    | nil => simp
    | cons b t =>
      have hne : (b :: t) ≠ [] := by simp
      simp only [List.length_cons, Nat.add_sub_cancel, List.set, List.dropLast_cons₂,
        List.cons_append]
      have := ih hne
      simp only [List.length_cons, Nat.add_sub_cancel] at this
      rw [this]

/-- `getD` through a `map`, at an in-range index. -/
theorem getD_map_of_lt {α β : Type} (f : α → β) :
    ∀ (l : List α) (i : Nat), i < l.length →
      ∀ (d : α) (d2 : β), (l.map f).getD i d2 = f (l.getD i d) := by
  intro l
  induction l with
  | nil => intro i hi; simp at hi
  | cons a rest ih =>
    intro i hi d d2
    cases i with
    | zero => simp
    | succ j =>
      simp only [List.map_cons, List.getD_cons_succ]
      exact ih j (by simpa using hi) d d2

/-- `if self.transform: image = self.transform(image)`: apply an optional
transform. -/
def applyT {α : Type} (t : Option (α → α)) (x : α) : α :=
  match t with
  | some f => f x
  | none => x

/-- The label value `__getitem__` yields for row `idx` of the CSV (before
the target transform): the 0/1 tensor scalar when a `label` column exists,
the filename string otherwise. -/
def expectedLabel (csv : CSVFile) (idx : Nat) : PyVal :=
  if csv.hasLabelCol then
    .num (if (csv.rows.getD idx ⟨"", ""⟩).label = "negative" then 0 else 1)
  else
    .str (csv.rows.getD idx ⟨"", ""⟩).image

/-! ## Claim theorems -/

/-- C3 (counterexample): on a YAML parse failure `load_config` does NOT log
a warning and does not return a configuration object: the claim's "logs a
warning ... and then returns" is false at a concrete parse error. -/
theorem load_config_logs_counterexample :
    ¬ ((load_config (.error "mock parse failure")).2 ≠ []
       ∧ ∃ cfg, (load_config (.error "mock parse failure")).1 = .ok cfg) :=
  fun h => h.1 rfl

/-- C3 (amended): when the YAML configuration file fails to parse,
`load_config` catches the YAMLError but its handler immediately evaluates
the undefined name `is_master_node`, raising a NameError: no warning is
logged, the parse error is not re-raised, and the function never reaches
its `return`, so no configuration object (defined or otherwise) is
produced. -/
theorem load_config_parse_failure (msg : String) :
    load_config (.error msg) = (.error (.nameError "is_master_node"), []) := rfl

/-- C4: in both model modules `configure_optimizers` returns a
ReduceLROnPlateau scheduler in `"min"` mode monitoring `"val/loss"`, the
validation step calls `lr_schedulers().step` with exactly the loss it just
computed from the batch, and the training step never steps the
scheduler. -/
theorem scheduler_driven_by_validation_loss {X Y : Type} (hp : HParams)
    (forward : X → List Rat) (criterion : List Rat → Y → Rat)
    (val_acc train_acc train_pre train_rec : List Int → Y → Rat)
    (batch : X × Y) :
    (EFFILitModule.configure_optimizers hp).scheduler.scheduler_type = "ReduceLROnPlateau"
    ∧ (EFFILitModule.configure_optimizers hp).scheduler.mode = "min"
    ∧ (EFFILitModule.configure_optimizers hp).monitor = "val/loss"
    ∧ (MVITLitModule.configure_optimizers hp).scheduler.scheduler_type = "ReduceLROnPlateau"
    ∧ (MVITLitModule.configure_optimizers hp).scheduler.mode = "min"
    ∧ (MVITLitModule.configure_optimizers hp).monitor = "val/loss"
    ∧ (EFFILitModule.validation_step forward criterion val_acc batch).scheduler_step
        = some (EFFILitModule.step forward criterion batch).1
    ∧ (EFFILitModule.training_step forward criterion train_acc train_pre train_rec batch).scheduler_step
        = none
    ∧ (MVITLitModule.validation_step forward criterion val_acc batch).scheduler_step
        = some (MVITLitModule.step forward criterion batch).1
    ∧ (MVITLitModule.training_step forward criterion train_acc batch).scheduler_step
        = none :=
  ⟨rfl, rfl, rfl, rfl, rfl, rfl, rfl, rfl, rfl, rfl⟩

/-- C6: in the example prediction script's loop, every index 0..149 is
attempted, a body that raises contributes nothing (the blanket
`except: continue` swallows the exception), and no failure stops the loop:
the saved files are exactly the per-index successes over the whole range,
whatever the dataset, filesystem, or conversion does. -/
theorem script_swallows_all_exceptions (fs : FS) (clahe : GrayImg → GrayImg)
    (convertL : Img → GrayImg) (ds : HealthDataset) :
    scriptLoop (exampleBody fs clahe convertL ds)
      = (List.range 150).filterMap (fun i => okValue (exampleBody fs clahe convertL ds i)) := by
  simpa using foldl_try_filterMap (exampleBody fs clahe convertL ds) (List.range 150) []

/-- C8: `EFFILitModule.__init__` replaces the classifier by the stack
Linear(1024, 32) → SiLU → Dropout(0.5) → Linear(32, output_size),
`MVITLitModule.__init__` replaces only the last classifier layer by
Linear(640, output_size), and neither touches the backbone. -/
theorem model_head_swap (m1 m2 : Network) (os1 os2 : Nat)
    (h : m2.classifier ≠ []) :
    (EFFILitModule.init_model m1 os1).classifier
      = [Layer.linear 1024 32, Layer.silu, Layer.dropout ((1 : Rat)/2), Layer.linear 32 os1]
    ∧ (EFFILitModule.init_model m1 os1).backbone = m1.backbone
    ∧ (MVITLitModule.init_model m2 os2).backbone = m2.backbone
    ∧ (MVITLitModule.init_model m2 os2).classifier
      = m2.classifier.dropLast ++ [Layer.linear 640 os2] := by
  refine ⟨rfl, rfl, rfl, ?_⟩
  simp only [MVITLitModule.init_model]
  exact set_last_eq_dropLast_append _ _ h

/-- Witness for C8: the head swap evaluated on a small concrete network. -/
theorem model_head_swap_witness :
    (Network.mk [Layer.other "stem"] [Layer.other "pool", Layer.linear 640 1000]).classifier ≠ []
    ∧ ((EFFILitModule.init_model (Network.mk [Layer.other "trunk"] [Layer.linear 1024 1000]) 1).classifier
        = [Layer.linear 1024 32, Layer.silu, Layer.dropout ((1 : Rat)/2), Layer.linear 32 1]
      ∧ (EFFILitModule.init_model (Network.mk [Layer.other "trunk"] [Layer.linear 1024 1000]) 1).backbone
        = (Network.mk [Layer.other "trunk"] [Layer.linear 1024 1000]).backbone
      ∧ (MVITLitModule.init_model (Network.mk [Layer.other "stem"] [Layer.other "pool", Layer.linear 640 1000]) 1).backbone
        = (Network.mk [Layer.other "stem"] [Layer.other "pool", Layer.linear 640 1000]).backbone
      ∧ (MVITLitModule.init_model (Network.mk [Layer.other "stem"] [Layer.other "pool", Layer.linear 640 1000]) 1).classifier
        = (Network.mk [Layer.other "stem"] [Layer.other "pool", Layer.linear 640 1000]).classifier.dropLast
          ++ [Layer.linear 640 1]) :=
  ⟨by simp,
   model_head_swap (Network.mk [Layer.other "trunk"] [Layer.linear 1024 1000])
     (Network.mk [Layer.other "stem"] [Layer.other "pool", Layer.linear 640 1000]) 1 1 (by simp)⟩

/-- C1: when a `label` column is present, `__init__` builds a labels tensor
whose data is exactly the row-ordered map sending `"negative"` to 0 and any
other label string to 1, with one entry per CSV row. -/
theorem labels_mapping (fs : FS) (clahe : GrayImg → GrayImg) (csv : CSVFile)
    (img_path : String) (tr : Option (Img → Img)) (ttr : Option (PyVal → PyVal))
    (lr : Bool) (ds : HealthDataset)
    (hcol : csv.hasLabelCol = true)
    (hinit : HealthDataset.init fs clahe csv img_path tr ttr lr = .ok ds) :
    ∃ t : Tensor, ds.labels = .tensor t
      ∧ t.data = csv.rows.map (fun row => if row.label = "negative" then 0 else 1)
      ∧ t.data.length = csv.rows.length := by
  obtain ⟨_, hlab, _⟩ := init_ok_fields fs clahe csv img_path tr ttr lr ds hinit
  refine ⟨Tensor.squeeze (floatTensor
    (csv.rows.map (fun row => if row.label = "negative" then 0 else 1))), ?_, ?_, ?_⟩
  · rw [hlab]; simp [initLabels, hcol]
  · rfl
  · simp [Tensor.squeeze, floatTensor]

/-- C2: with `load_ram=True`, a successful construction caches one
preprocessed image per CSV row, the i-th cache entry being the preprocessed
image of the i-th filename (the parallel map keeps input order), and no
dataset operation changes the object's state afterwards. -/
theorem ram_cache_invariant (fs : FS) (clahe : GrayImg → GrayImg) (csv : CSVFile)
    (img_path : String) (tr : Option (Img → Img)) (ttr : Option (PyVal → PyVal))
    (ds : HealthDataset)
    (hinit : HealthDataset.init fs clahe csv img_path tr ttr true = .ok ds) :
    ds.images.length = csv.rows.length
    ∧ (∀ i, i < csv.rows.length →
        HealthDataset.preproc_image fs clahe (img_path ++ (csv.rows.getD i ⟨"", ""⟩).image)
          = .ok (ds.images.getD i []))
    ∧ (∀ idx, (HealthDataset.load_image fs clahe ds idx).2 = ds
        ∧ (HealthDataset.getitemS fs clahe ds idx).2 = ds
        ∧ (HealthDataset.lenS ds).2 = ds) := by
  obtain ⟨_, _, _, _, _, _, _, hram, _⟩ :=
    init_ok_fields fs clahe csv img_path tr ttr true ds hinit
  have hpar := hram rfl
  refine ⟨?_, ?_, fun idx => ⟨rfl, rfl, rfl⟩⟩
  · have := parallelMap_ok_length _ _ _ hpar
    simpa using this
  · intro i hi
    have hi2 : i < (csv.rows.map (fun row => row.image)).length := by simpa using hi
    have := parallelMap_ok_getD _ _ _ hpar i "" [] hi2
    rwa [getD_map_of_lt _ _ _ hi ⟨"", ""⟩ ""] at this

/-- C5: images are addressed by plain concatenation `img_path + name` with
no existence check: if the filesystem raises on a listed file, eager
construction (`load_ram=True`) fails with a propagated exception, and with
`load_ram=False` the deferred `load_image` at that row propagates the very
same exception. -/
theorem missing_file_propagates (fs : FS) (clahe : GrayImg → GrayImg) (csv : CSVFile)
    (img_path : String) (tr : Option (Img → Img)) (ttr : Option (PyVal → PyVal))
    (name : String) (e : PyError)
    (hmem : name ∈ csv.rows.map (fun row => row.image))
    (herr : fs (img_path ++ name) = .error e) :
    (∃ e2, HealthDataset.init fs clahe csv img_path tr ttr true = .error e2)
    ∧ ∀ (ds : HealthDataset) (idx : Nat),
        HealthDataset.init fs clahe csv img_path tr ttr false = .ok ds →
        idx < ds.names.length →
        ds.names.getD idx "" = name →
        (HealthDataset.load_image fs clahe ds idx).1 = .error e := by
  constructor
  · have hf : HealthDataset.preproc_image fs clahe (img_path ++ name) = .error e := by
      simp [HealthDataset.preproc_image, herr]
    obtain ⟨e2, he2⟩ := parallelMap_error_of_mem
      (fun n => HealthDataset.preproc_image fs clahe (img_path ++ n))
      (csv.rows.map (fun row => row.image)) ⟨name, hmem, e, hf⟩
    refine ⟨e2, ?_⟩
    simp [HealthDataset.init, he2]
  · intro ds idx hinit hidx hname
    obtain ⟨_, _, _, _, _, hpath, hlr, _, _⟩ :=
      init_ok_fields fs clahe csv img_path tr ttr false ds hinit
    simp only [HealthDataset.load_image, hlr, Bool.false_eq_true, if_false, if_pos hidx,
      hpath, hname]
    simp [HealthDataset.preproc_image, herr]

/-- C9: for a fixed filesystem and CSV, `load_image` returns the same image
whether the dataset was built with `load_ram=True` (a copy of the cache
entry) or `load_ram=False` (re-decoding on demand): the cached and
recomputed paths agree at every valid index. -/
theorem load_image_cache_equiv (fs : FS) (clahe : GrayImg → GrayImg) (csv : CSVFile)
    (img_path : String) (tr : Option (Img → Img)) (ttr : Option (PyVal → PyVal))
    (dsT dsF : HealthDataset) (idx : Nat)
    (hT : HealthDataset.init fs clahe csv img_path tr ttr true = .ok dsT)
    (hF : HealthDataset.init fs clahe csv img_path tr ttr false = .ok dsF)
    (hidx : idx < dsT.names.length) :
    (HealthDataset.load_image fs clahe dsT idx).1
      = (HealthDataset.load_image fs clahe dsF idx).1 := by
  obtain ⟨_, _, hTnames, _, _, hTpath, hTlr, hTram, _⟩ :=
    init_ok_fields fs clahe csv img_path tr ttr true dsT hT
  obtain ⟨_, _, hFnames, _, _, hFpath, hFlr, _, _⟩ :=
    init_ok_fields fs clahe csv img_path tr ttr false dsF hF
  have hpar := hTram rfl
  have hrows : idx < csv.rows.length := by
    have := hidx
    rw [hTnames] at this
    simpa using this
  have hlenT : dsT.images.length = csv.rows.length := by
    have := parallelMap_ok_length _ _ _ hpar
    simpa using this
  have hmap : idx < (csv.rows.map (fun row => row.image)).length := by simpa using hrows
  have hentry := parallelMap_ok_getD _ _ _ hpar idx "" [] hmap
  have hidxT : idx < dsT.images.length := by rw [hlenT]; exact hrows
  have hidxF : idx < dsF.names.length := by rw [hFnames]; simpa using hrows
  have hleft : (HealthDataset.load_image fs clahe dsT idx).1 = .ok (dsT.images.getD idx []) := by
    simp [HealthDataset.load_image, hTlr, hidxT, Img.copy]
  have hright : (HealthDataset.load_image fs clahe dsF idx).1 = .ok (dsT.images.getD idx []) := by
    have hg : dsF.names.getD idx "" = (csv.rows.getD idx ⟨"", ""⟩).image := by
      rw [hFnames]; exact getD_map_of_lt _ _ _ hrows ⟨"", ""⟩ ""
    rw [getD_map_of_lt _ _ _ hrows ⟨"", ""⟩ ""] at hentry
    have hstep : (HealthDataset.load_image fs clahe dsF idx).1
        = HealthDataset.preproc_image fs clahe (dsF.image_path ++ dsF.names.getD idx "") := by
      simp [HealthDataset.load_image, hFlr, hidxF]
    rw [hstep, hFpath, hg]
    exact hentry
  rw [hleft, hright]

/-- `labels[idx]` succeeds with the expected value at an in-range index,
provided either there is no label column (string list) or the label tensor
kept its dimension (row count ≠ 1, so `squeeze` left a 1-D tensor). -/
theorem labels_index_ok (csv : CSVFile) (ds : HealthDataset) (idx : Nat)
    (hlab : ds.labels = initLabels csv)
    (hidx : idx < csv.rows.length)
    (hshape : csv.hasLabelCol = false ∨ csv.rows.length ≠ 1) :
    ds.labels.index idx = .ok (expectedLabel csv idx) := by
  rw [hlab, initLabels]
  cases hcol : csv.hasLabelCol with
  | false =>
    simp only [Bool.false_eq_true, if_false, Labels.index]
    rw [if_pos (by simpa using hidx)]
    rw [getD_map_of_lt _ _ _ hidx ⟨"", ""⟩ ""]
    simp [expectedLabel, hcol]
  | true =>
    have hne : csv.rows.length ≠ 1 := by
      cases hshape with
      | inl h => rw [hcol] at h; exact absurd h (by simp)
      | inr h => exact h
    simp only [if_true, Labels.index, Tensor.item, Tensor.squeeze, floatTensor,
      List.length_map]
    rw [List.filter_cons_of_pos (by simpa using hne), List.filter_nil]
    simp [hidx, getD_map_of_lt _ _ _ hidx ⟨"", ""⟩ 0, expectedLabel, hcol, Except.map]

/-- `load_image` at an index past the table length raises IndexError, in
both cache modes. -/
theorem load_image_oob (fs : FS) (clahe : GrayImg → GrayImg) (csv : CSVFile)
    (img_path : String) (tr : Option (Img → Img)) (ttr : Option (PyVal → PyVal))
    (lr : Bool) (ds : HealthDataset) (jdx : Nat)
    (hinit : HealthDataset.init fs clahe csv img_path tr ttr lr = .ok ds)
    (hj : ds.names.length ≤ jdx) :
    (HealthDataset.load_image fs clahe ds jdx).1 = .error .indexError := by
  obtain ⟨_, _, hnames, _, _, _, hlr, hram, hempty⟩ :=
    init_ok_fields fs clahe csv img_path tr ttr lr ds hinit
  cases lr with
  | true =>
    have hlen : ds.images.length = ds.names.length := by
      have := parallelMap_ok_length _ _ _ (hram rfl)
      rw [hnames]
      simpa using this
    have : ¬ jdx < ds.images.length := by rw [hlen]; omega
    simp [HealthDataset.load_image, hlr, this]
  | false =>
    have : ¬ jdx < ds.names.length := by omega
    simp [HealthDataset.load_image, hlr, this, hempty rfl]

/-- C10 (implicit): when the CSV has no `label` column, `self.labels` is
the plain filename list, every `__len__` call raises AttributeError (a list
has no `shape`), and `__getitem__` hands back the image filename string as
the label component (through the target transform when one is set). -/
theorem no_label_column_behavior (fs : FS) (clahe : GrayImg → GrayImg) (csv : CSVFile)
    (img_path : String) (tr : Option (Img → Img)) (ttr : Option (PyVal → PyVal))
    (lr : Bool) (ds : HealthDataset)
    (hcol : csv.hasLabelCol = false)
    (hinit : HealthDataset.init fs clahe csv img_path tr ttr lr = .ok ds) :
    ds.labels = .strlist (csv.rows.map (fun row => row.image))
    ∧ (HealthDataset.lenS ds).1 = .error .attributeError
    ∧ ∀ (idx : Nat) (img : Img), idx < ds.names.length →
        (HealthDataset.load_image fs clahe ds idx).1 = .ok img →
        (HealthDataset.getitemS fs clahe ds idx).1
          = .ok (applyT tr img, applyT ttr (.str ((csv.rows.getD idx ⟨"", ""⟩).image))) := by
  obtain ⟨_, hlab, hnames, htr, httr, _, _, _, _⟩ :=
    init_ok_fields fs clahe csv img_path tr ttr lr ds hinit
  have hlab2 : ds.labels = .strlist (csv.rows.map (fun row => row.image)) := by
    rw [hlab]; simp [initLabels, hcol]
  refine ⟨hlab2, by simp [HealthDataset.lenS, hlab2], ?_⟩
  intro idx img hidx himg
  have hrows : idx < csv.rows.length := by
    rw [hnames] at hidx; simpa using hidx
  have hlabidx : ds.labels.index idx = .ok (expectedLabel csv idx) :=
    labels_index_ok csv ds idx hlab hrows (Or.inl hcol)
  have hexp : expectedLabel csv idx = .str ((csv.rows.getD idx ⟨"", ""⟩).image) := by
    simp [expectedLabel, hcol]
  simp only [HealthDataset.getitemS, himg, hlabidx, hexp, htr, httr]
  cases tr <;> cases ttr <;> rfl

/-- A one-row CSV with a `label` column. -/
def csvOne : CSVFile := { rows := [⟨"c.png", "positive"⟩], hasLabelCol := true }

/-- A filesystem on which every read succeeds with a small two-pixel image. -/
def fsAll : FS := fun _ => .ok [7, 200]

/-- The dataset that construction on `csvOne` with `load_ram=True` produces. -/
def dsOne : HealthDataset :=
  match HealthDataset.init fsAll id csvOne "imgs/" none none true with
  | .ok d => d
  | .error _ => default

/-- C7 (counterexample): on a one-row CSV with a `label` column,
construction succeeds and index 0 is in range, yet `__getitem__(0)` raises
IndexError: `squeeze()` turned the one-element labels tensor into a 0-dim
tensor that cannot be indexed.  So not every in-range index returns a
pair. -/
theorem getitem_single_row_counterexample :
    HealthDataset.init fsAll id csvOne "imgs/" none none true = .ok dsOne
    ∧ 0 < dsOne.names.length
    ∧ (HealthDataset.getitemS fsAll id dsOne 0).1 = .error .indexError :=
  ⟨rfl, by decide, rfl⟩

/-- C7 (amended): for every in-range index, `__getitem__` returns the
loaded image with the transform applied when one is set, paired with the
idx-th label with the target transform applied when one is set — provided
the CSV either has no label column or does not have exactly one row (in
which case `squeeze()` makes every label lookup raise IndexError) — and
any out-of-range index fails with the underlying IndexError. -/
theorem getitem_characterization (fs : FS) (clahe : GrayImg → GrayImg) (csv : CSVFile)
    (img_path : String) (tr : Option (Img → Img)) (ttr : Option (PyVal → PyVal))
    (lr : Bool) (ds : HealthDataset) (idx : Nat) (img : Img)
    (hinit : HealthDataset.init fs clahe csv img_path tr ttr lr = .ok ds)
    (hshape : csv.hasLabelCol = false ∨ csv.rows.length ≠ 1)
    (hidx : idx < ds.names.length)
    (himg : (HealthDataset.load_image fs clahe ds idx).1 = .ok img) :
    (HealthDataset.getitemS fs clahe ds idx).1
      = .ok (applyT tr img, applyT ttr (expectedLabel csv idx))
    ∧ ∀ jdx, ds.names.length ≤ jdx →
        (HealthDataset.getitemS fs clahe ds jdx).1 = .error .indexError := by
  obtain ⟨_, hlab, hnames, htr, httr, _, _, _, _⟩ :=
    init_ok_fields fs clahe csv img_path tr ttr lr ds hinit
  constructor
  · have hrows : idx < csv.rows.length := by
      rw [hnames] at hidx; simpa using hidx
    have hlabidx : ds.labels.index idx = .ok (expectedLabel csv idx) :=
      labels_index_ok csv ds idx hlab hrows hshape
    simp only [HealthDataset.getitemS, himg, hlabidx, htr, httr]
    cases tr <;> cases ttr <;> rfl
  · intro jdx hj
    have hoob := load_image_oob fs clahe csv img_path tr ttr lr ds jdx hinit hj
    simp only [HealthDataset.getitemS, hoob]

/-! ## Witnesses at concrete inputs -/

/-- A two-row labeled CSV used by the witnesses. -/
def csvTwo : CSVFile :=
  { rows := [⟨"a.png", "negative"⟩, ⟨"b.png", "positive"⟩], hasLabelCol := true }

/-- The RAM-cached dataset built from `csvTwo` on `fsAll`. -/
def dsTwo : HealthDataset :=
  match HealthDataset.init fsAll id csvTwo "imgs/" none none true with
  | .ok d => d
  | .error _ => default

/-- The non-cached dataset built from `csvTwo` on `fsAll`. -/
def dsTwoF : HealthDataset :=
  match HealthDataset.init fsAll id csvTwo "imgs/" none none false with
  | .ok d => d
  | .error _ => default

/-- A two-row CSV without a `label` column. -/
def csvNoLabel : CSVFile :=
  { rows := [⟨"a.png", ""⟩, ⟨"b.png", ""⟩], hasLabelCol := false }

/-- The RAM-cached dataset built from `csvNoLabel` on `fsAll`. -/
def dsNoLabel : HealthDataset :=
  match HealthDataset.init fsAll id csvNoLabel "imgs/" none none true with
  | .ok d => d
  | .error _ => default

/-- A filesystem on which `imgs/b.png` is missing and every other read
succeeds. -/
def fsMissing : FS := fun path =>
  if path = "imgs/b.png" then .error (.fileNotFoundError "imgs/b.png") else .ok [7]

/-- Witness for C1: the label mapping evaluated on a concrete two-row CSV
with labels `"negative"` and `"positive"`. -/
theorem labels_mapping_witness :
    csvTwo.hasLabelCol = true
    ∧ HealthDataset.init fsAll id csvTwo "imgs/" none none true = .ok dsTwo
    ∧ ∃ t : Tensor, dsTwo.labels = .tensor t
        ∧ t.data = csvTwo.rows.map (fun row => if row.label = "negative" then 0 else 1)
        ∧ t.data.length = csvTwo.rows.length :=
  ⟨rfl, rfl, labels_mapping fsAll id csvTwo "imgs/" none none true dsTwo rfl rfl⟩

/-- Witness for C2: the RAM-cache invariant evaluated on the concrete
two-row dataset. -/
theorem ram_cache_invariant_witness :
    HealthDataset.init fsAll id csvTwo "imgs/" none none true = .ok dsTwo
    ∧ (dsTwo.images.length = csvTwo.rows.length
       ∧ (∀ i, i < csvTwo.rows.length →
            HealthDataset.preproc_image fsAll id ("imgs/" ++ (csvTwo.rows.getD i ⟨"", ""⟩).image)
              = .ok (dsTwo.images.getD i []))
       ∧ (∀ idx, (HealthDataset.load_image fsAll id dsTwo idx).2 = dsTwo
           ∧ (HealthDataset.getitemS fsAll id dsTwo idx).2 = dsTwo
           ∧ (HealthDataset.lenS dsTwo).2 = dsTwo)) :=
  ⟨rfl, ram_cache_invariant fsAll id csvTwo "imgs/" none none dsTwo rfl⟩

/-- Witness for C5: on a filesystem missing `imgs/b.png`, eager
construction fails and the deferred `load_image` at that row propagates the
FileNotFoundError. -/
theorem missing_file_propagates_witness :
    ("b.png" ∈ csvTwo.rows.map (fun row => row.image)
     ∧ fsMissing ("imgs/" ++ "b.png") = .error (.fileNotFoundError "imgs/b.png"))
    ∧ ((∃ e2, HealthDataset.init fsMissing id csvTwo "imgs/" none none true = .error e2)
       ∧ ∀ (ds : HealthDataset) (idx : Nat),
           HealthDataset.init fsMissing id csvTwo "imgs/" none none false = .ok ds →
           idx < ds.names.length →
           ds.names.getD idx "" = "b.png" →
           (HealthDataset.load_image fsMissing id ds idx).1
             = .error (.fileNotFoundError "imgs/b.png")) :=
  ⟨⟨by simp [csvTwo], rfl⟩,
   missing_file_propagates fsMissing id csvTwo "imgs/" none none "b.png"
     (.fileNotFoundError "imgs/b.png") (by simp [csvTwo]) rfl⟩

/-- Witness for C7 (amended): `__getitem__` on the concrete two-row dataset
at index 0, and the out-of-range guarantee. -/
theorem getitem_characterization_witness :
    (HealthDataset.init fsAll id csvTwo "imgs/" none none true = .ok dsTwo
     ∧ (csvTwo.hasLabelCol = false ∨ csvTwo.rows.length ≠ 1)
     ∧ 0 < dsTwo.names.length
     ∧ (HealthDataset.load_image fsAll id dsTwo 0).1 = .ok [(7, 7, 7), (200, 200, 200)])
    ∧ ((HealthDataset.getitemS fsAll id dsTwo 0).1
         = .ok (applyT none [(7, 7, 7), (200, 200, 200)], applyT none (expectedLabel csvTwo 0))
       ∧ ∀ jdx, dsTwo.names.length ≤ jdx →
           (HealthDataset.getitemS fsAll id dsTwo jdx).1 = .error .indexError) :=
  ⟨⟨rfl, Or.inr (by decide), by decide, rfl⟩,
   getitem_characterization fsAll id csvTwo "imgs/" none none true dsTwo 0
     [(7, 7, 7), (200, 200, 200)] rfl (Or.inr (by decide)) (by decide) rfl⟩

/-- Witness for C9: the cached and recomputed `load_image` agree at index 1
of the concrete two-row dataset. -/
theorem load_image_cache_equiv_witness :
    (HealthDataset.init fsAll id csvTwo "imgs/" none none true = .ok dsTwo
     ∧ HealthDataset.init fsAll id csvTwo "imgs/" none none false = .ok dsTwoF
     ∧ 1 < dsTwo.names.length)
    ∧ (HealthDataset.load_image fsAll id dsTwo 1).1
        = (HealthDataset.load_image fsAll id dsTwoF 1).1 :=
  ⟨⟨rfl, rfl, by decide⟩,
   load_image_cache_equiv fsAll id csvTwo "imgs/" none none dsTwo dsTwoF 1 rfl rfl (by decide)⟩

/-- Witness for C10: the no-label behaviour on the concrete two-row CSV
without a `label` column. -/
theorem no_label_column_behavior_witness :
    (csvNoLabel.hasLabelCol = false
     ∧ HealthDataset.init fsAll id csvNoLabel "imgs/" none none true = .ok dsNoLabel)
    ∧ (dsNoLabel.labels = .strlist (csvNoLabel.rows.map (fun row => row.image))
       ∧ (HealthDataset.lenS dsNoLabel).1 = .error .attributeError
       ∧ ∀ (idx : Nat) (img : Img), idx < dsNoLabel.names.length →
           (HealthDataset.load_image fsAll id dsNoLabel idx).1 = .ok img →
           (HealthDataset.getitemS fsAll id dsNoLabel idx).1
             = .ok (applyT none img,
                    applyT none (.str ((csvNoLabel.rows.getD idx ⟨"", ""⟩).image)))) :=
  ⟨⟨rfl, rfl⟩,
   no_label_column_behavior fsAll id csvNoLabel "imgs/" none none true dsNoLabel rfl rfl⟩
